import Mathlib

/-!
Verification of the wilson orchestrator core against its natural-language
specification.  The Python source is shallowly embedded: pure fragments become
Lean functions, in-place mutation of supervisor state becomes explicit state
passing, external collaborators (the LLM client, thread timing, fresh-id
generation) become explicit parameters, and Python exceptions become
`Except`-valued results.  Dollar amounts are exact rationals (`ℚ`); the
binary-float artifacts of CPython are abstracted away.
-/

namespace Wilson

/-! ## Python-semantics helpers -/

/-- Python string truthiness: a `str` is truthy iff non-empty. -/
def pyTruthyStr (s : String) : Bool := s ≠ ""

/-- Python `a or b` on two optional strings followed by `or ""`:
the first truthy (present and non-empty) value, else `""`.
Models `str(task.get("text") or task.get("description") or "")`. -/
def pyOrStr2 (a b : Option String) : String :=
  match a with
  | some s => if s ≠ "" then s else (match b with | some t => if t ≠ "" then t else "" | none => "")
  | none => (match b with | some t => if t ≠ "" then t else "" | none => "")

/-- Python `x or "NONE"` for an optional string (`None` and `""` are falsy). -/
def pyOrDefault (a : Option String) (dflt : String) : String :=
  match a with
  | some s => if s ≠ "" then s else dflt
  | none => dflt

/-- Python `f"{x}"` on an optional string: `None` renders as `"None"`. -/
def pyStrOpt : Option String → String
  | none => "None"
  | some s => s

/-- Infix test on character lists: `needle` occurs contiguously in `hay`.
Models Python `needle in hay` on strings. -/
def listHasInfix (needle : List Char) : List Char → Bool
  | [] => needle.isEmpty
  | c :: t => needle.isPrefixOf (c :: t) || listHasInfix needle t

/-- Python `needle in hay` for strings. -/
def pyInStr (needle hay : String) : Bool :=
  listHasInfix needle.data hay.data

/-- Python `s.strip()`: drop leading and trailing whitespace
(char-list model, so it evaluates inside the kernel). -/
def pyStrip (s : String) : String :=
  String.mk (((s.data.dropWhile Char.isWhitespace).reverse.dropWhile
    Char.isWhitespace).reverse)

/-- Python `s.upper()` (character-wise, as for the ASCII ids involved). -/
def pyToUpper (s : String) : String := String.mk (s.data.map Char.toUpper)

/-- Python `s.lower()` (character-wise, as for the ASCII ids involved). -/
def pyToLower (s : String) : String := String.mk (s.data.map Char.toLower)

/-- Python `s[:n]` (code-point slicing). -/
def pyTake (n : ℕ) (s : String) : String := String.mk (s.data.take n)

/-- Association-list lookup keyed by `String` (models Python dict lookup /
file-by-name lookup): first pair with the given key. -/
def alookup {β : Type} (k : String) (l : List (String × β)) : Option β :=
  (l.find? (fun p => p.1 = k)).map (·.2)

/-! ## Dollar-figure formatting

CPython renders the dollar figures with `f"{x:.3f}"` / `f"{x:.2f}"`:
round-half-even to the given number of decimals, then fixed-point digits. -/

/-- Round-half-even (banker's rounding) of a rational to an integer,
as CPython float formatting does. -/
def roundHalfEven (q : ℚ) : ℤ :=
  let f := ⌊q⌋
  let r := q - (f : ℚ)
  if r < 1/2 then f
  else if 1/2 < r then f + 1
  else if f % 2 = 0 then f else f + 1

/-- Zero-pad a natural to `d` digits. -/
def padDigits (d : ℕ) (n : ℕ) : String :=
  let s := toString n
  (String.mk (List.replicate (d - s.length) '0')) ++ s

/-- Models CPython `f"{q:.{d}f}"` on an exact rational. -/
def pyFormatFixed (d : ℕ) (q : ℚ) : String :=
  let n := roundHalfEven (q * (10 ^ d : ℕ))
  let sign := if n < 0 then "-" else ""
  let m := n.natAbs
  sign ++ toString (m / 10 ^ d) ++ "." ++ padDigits d (m % 10 ^ d)

/-- `f"${x:.3f}"` digits part, used by the budget-stop message. -/
def formatUsd3 (q : ℚ) : String := pyFormatFixed 3 q

/-- `f"${x:.2f}"` digits part, used by the low-budget progress message. -/
def formatUsd2 (q : ℚ) : String := pyFormatFixed 2 q

/-! ## Budget governor — `ouroboros/loop.py`, `_check_budget_limits`

The source inspects `budget_remaining_usd` (possibly `None`) and the task's
accumulated cost `accumulated_usage.get("cost", 0)`.  The downshift branch
calls `switch_model("low")` and `emit_progress(...)`; those two callees live in
the part of `loop.py` not included under `src/`, so (modelled from the spec:
"the agent loop is instructed to prefer a cheaper model tier for subsequent
rounds") they are recorded as explicit effects. -/

/-- An effect the budget check requests from the surrounding agent loop. -/
inductive BudgetEffect
  | switchModel (tier : String)
  | emitProgress (msg : String)
deriving DecidableEq, Repr

/-- Shallow embedding of `_check_budget_limits` (loop.py:397-446).
Returns the optional final stop text (first component of the Python triple)
and the effects requested on the way to returning `None`. -/
def check_budget_limits (budget_remaining_usd : Option ℚ)
    (accumulated_cost : Option ℚ) (active_effort : String)
    (task_type : String) : Option String × List BudgetEffect :=
  match budget_remaining_usd with
  | none => (none, [])
  | some r =>
    let task_cost := accumulated_cost.getD 0
    let budget_pct := if 0 < r then task_cost / r else 1
    if 1/2 < budget_pct then
      let finish_reason :=
        "Task spent $" ++ formatUsd3 task_cost ++ " (>50% of remaining $"
          ++ formatUsd3 r ++ ")"
      let final_text :=
        "⚠️ Budget exceeded (" ++ finish_reason ++ "). \n"
          ++ "Stopping execution. Total spent: $" ++ formatUsd3 task_cost
      (some final_text, [])
    else
      let effects :=
        if r < 5 ∧ active_effort ≠ "low" then
          [BudgetEffect.switchModel "low",
           BudgetEffect.emitProgress
             ("⚠️ Low budget ($" ++ formatUsd2 r
               ++ " remaining) — switching to low-effort model")]
        else []
      let _ := task_type
      (none, effects)

/-- C1. With remaining budget `r` and accumulated task cost `c`: if `c`
exceeds 50% of `r` (or `r ≤ 0`), `_check_budget_limits` returns a final stop
message containing both the task-cost and the remaining-budget dollar figures;
if `0 < r` and `c` is at most 50% of `r`, it returns `None` and the loop
continues. -/
theorem budget_check_hard_stop (r c : ℚ) (effort ttype : String) :
    ((0 < r ∧ r / 2 < c) ∨ r ≤ 0 →
      ∃ msg, (check_budget_limits (some r) (some c) effort ttype).1 = some msg ∧
        (∃ a b, msg = a ++ formatUsd3 c ++ b) ∧
        (∃ a b, msg = a ++ formatUsd3 r ++ b))
    ∧ (0 < r → c ≤ r / 2 →
      (check_budget_limits (some r) (some c) effort ttype).1 = none) := by
  constructor
  · intro h
    have hpct : (1 : ℚ)/2 < (if 0 < r then c / r else 1) := by
      rcases h with ⟨hr, hc⟩ | hr
      · rw [if_pos hr, lt_div_iff₀ hr]; linarith
      · rw [if_neg (not_lt.mpr hr)]; norm_num
    simp only [check_budget_limits, Option.getD_some, if_pos hpct]
    refine ⟨_, rfl, ⟨"⚠️ Budget exceeded (" ++ "Task spent $",
        " (>50% of remaining $" ++ formatUsd3 r ++ ")" ++ "). \n"
          ++ "Stopping execution. Total spent: $" ++ formatUsd3 c, ?_⟩,
      ⟨"⚠️ Budget exceeded (" ++ ("Task spent $" ++ formatUsd3 c
          ++ " (>50% of remaining $"),
        ")" ++ "). \n" ++ "Stopping execution. Total spent: $" ++ formatUsd3 c,
        ?_⟩⟩ <;>
      · apply String.ext
        simp [String.data_append, List.append_assoc]
  · intro hr hc
    have hpct : ¬ ((1 : ℚ)/2 < (if 0 < r then c / r else 1)) := by
      rw [if_pos hr, not_lt, div_le_iff₀ hr]; linarith
    simp only [check_budget_limits, Option.getD_some, if_neg hpct]

/-- C1 witness: with remaining budget $10 and accumulated cost $6 the check
stops with a message naming both figures, and with cost $4 it continues. -/
theorem budget_check_hard_stop_witness :
    (∃ msg, (check_budget_limits (some 10) (some 6) "high" "task").1 = some msg ∧
      (∃ a b, msg = a ++ formatUsd3 6 ++ b) ∧
      (∃ a b, msg = a ++ formatUsd3 10 ++ b)) ∧
    (check_budget_limits (some 10) (some 4) "high" "task").1 = none :=
  ⟨(budget_check_hard_stop 10 6 "high" "task").1
      (Or.inl ⟨by norm_num, by norm_num⟩),
    (budget_check_hard_stop 10 4 "high" "task").2 (by norm_num) (by norm_num)⟩

/-- C8. Below the absolute $5 remaining-budget threshold, when the hard stop
does not fire and the active effort is not already "low", the budget check
instructs the loop to switch to the low model tier and returns `None`
(the loop continues). -/
theorem budget_check_downshift (r c : ℚ) (effort ttype : String)
    (hr : 0 < r) (hc : c ≤ r / 2) (h5 : r < 5) (heff : effort ≠ "low") :
    (check_budget_limits (some r) (some c) effort ttype).1 = none ∧
    BudgetEffect.switchModel "low"
      ∈ (check_budget_limits (some r) (some c) effort ttype).2 := by
  have hpct : ¬ ((1 : ℚ)/2 < (if 0 < r then c / r else 1)) := by
    rw [if_pos hr, not_lt, div_le_iff₀ hr]; linarith
  simp only [check_budget_limits, Option.getD_some, if_neg hpct,
    if_pos (And.intro h5 heff)]
  exact ⟨by simp, by simp⟩

/-- C8 witness: at $4 remaining, cost $1, effort "high", the check downshifts
and continues. -/
theorem budget_check_downshift_witness :
    (check_budget_limits (some 4) (some 1) "high" "task").1 = none ∧
    BudgetEffect.switchModel "low"
      ∈ (check_budget_limits (some 4) (some 1) "high" "task").2 :=
  budget_check_downshift 4 1 "high" "task" (by norm_num) (by norm_num)
    (by norm_num) (by decide)

/-! ## Tool execution engine — `ouroboros/tool_executor.py`

A tool call is a dict `{"id": ..., "function": {"name": ..., "arguments": ...}}`;
we flatten it.  The inner `_execute_single_tool` wraps external effects (JSON
parsing of the arguments, the tool body itself, audit logging), so its outcome
and the timing of the call (did it exceed the timeout?) are oracle parameters;
everything the executor itself computes is embedded.  The `args_for_log` /
`llm_trace` audit copies are log-only and omitted from the result record. -/

/-- A single tool call requested by one model turn (flattened dict). -/
structure ToolCall where
  id : String
  fn_name : String
  arguments : String
deriving DecidableEq, Repr

/-- The result record built for one tool call. -/
structure ToolResult where
  tool_call_id : String
  fn_name : String
  result : String
  is_error : Bool
  is_code_tool : Bool
deriving DecidableEq, Repr

/-- `READ_ONLY_PARALLEL_TOOLS` (tool_executor.py:32-36). -/
def READ_ONLY_PARALLEL_TOOLS : List String :=
  ["repo_read", "repo_list", "drive_read", "drive_list",
   "web_search", "codebase_digest", "chat_history"]

/-- `STATEFUL_BROWSER_TOOLS` (tool_executor.py:39). -/
def STATEFUL_BROWSER_TOOLS : List String := ["browse_page", "browser_action"]

/-- What happens to the thread running the underlying call.  The executor has
no force-kill operation: on a regular timeout the disposable worker thread is
shut down with `wait=False` and left running in the background; on a stateful
timeout the sticky executor is shut down and a fresh one is created lazily. -/
inductive ThreadEffect
  | noEffect
  | abandonInBackground
  | resetSticky
deriving DecidableEq, Repr

/-- External behaviour of one model turn's tool environment. -/
structure ToolEnv where
  /-- `tools.CODE_TOOLS` membership source. -/
  codeTools : List String
  /-- `tools.get_timeout(name)`. -/
  getTimeout : String → ℕ
  /-- Outcome of `_execute_single_tool` when it completes within the timeout. -/
  runTool : ToolCall → ToolResult
  /-- Whether this call's execution exceeds the timeout handed to
  `_execute_with_timeout`. -/
  timesOut : ToolCall → Bool

/-- Shallow embedding of `_make_timeout_result` (tool_executor.py:147-195),
result-record part (the two audit-log appends are I/O). -/
def make_timeout_result (fn_name tool_call_id : String) (is_code_tool : Bool)
    (timeout_sec : ℕ) (reset_msg : String) : ToolResult :=
  { tool_call_id := tool_call_id
    fn_name := fn_name
    result :=
      "⚠️ TOOL_TIMEOUT (" ++ fn_name ++ "): exceeded " ++ toString timeout_sec
        ++ "s limit. "
        ++ "The tool is still running in background but control is returned to you. "
        ++ reset_msg ++ "Try a different approach or inform the owner"
        ++ (if reset_msg = "" then " about the issue" else "") ++ "."
    is_error := true
    is_code_tool := is_code_tool }

/-- Shallow embedding of `_execute_with_timeout` (tool_executor.py:198-244):
returns the result record and what happened to the executing thread. -/
def execute_with_timeout (env : ToolEnv) (stateful_executor_present : Bool)
    (tc : ToolCall) (timeout_sec : ℕ) : ToolResult × ThreadEffect :=
  let fn_name := tc.fn_name
  let is_code_tool := env.codeTools.contains fn_name
  let use_stateful :=
    stateful_executor_present && STATEFUL_BROWSER_TOOLS.contains fn_name
  if env.timesOut tc then
    if use_stateful then
      (make_timeout_result fn_name tc.id is_code_tool timeout_sec
        "Browser state has been reset. ", ThreadEffect.resetSticky)
    else
      (make_timeout_result fn_name tc.id is_code_tool timeout_sec "",
        ThreadEffect.abandonInBackground)
  else
    (env.runTool tc, ThreadEffect.noEffect)

/-- `_truncate_tool_result` (tool_executor.py:42-51). -/
def truncate_tool_result (result_str : String) : String :=
  if result_str.length ≤ 15000 then result_str
  else
    result_str.take 15000 ++ "\n... (truncated from "
      ++ toString result_str.length ++ " chars)"

/-- A conversation message (role, content, correlation id). -/
structure ChatMsg where
  role : String
  content : String
  tool_call_id : Option String
deriving DecidableEq, Repr

/-- The `"role": "tool"` message appended for one result
(tool_executor.py:300-305). -/
def tool_result_msg (r : ToolResult) : ChatMsg :=
  { role := "tool", content := truncate_tool_result r.result,
    tool_call_id := some r.tool_call_id }

/-- The parallel-branch guard of `_handle_tool_calls`
(tool_executor.py:263-269). -/
def can_parallel (tool_calls : List ToolCall) : Bool :=
  decide (tool_calls.length > 1)
    && tool_calls.all (fun tc => READ_ONLY_PARALLEL_TOOLS.contains tc.fn_name)

/-- `max_workers = min(len(tool_calls), 8)` (tool_executor.py:279). -/
def parallel_max_workers (n : ℕ) : ℕ := min n 8

/-- One call through `_execute_with_timeout` with its declared timeout, result
component (both branches of `_handle_tool_calls` run exactly this per call). -/
def exec_res (env : ToolEnv) (stateful_executor_present : Bool)
    (tc : ToolCall) : ToolResult :=
  (execute_with_timeout env stateful_executor_present tc
    (env.getTimeout tc.fn_name)).1

/-- The `as_completed` loop of the parallel branch (tool_executor.py:290-293):
slots indexed by original position, filled in completion order.  The
`completion_order` parameter is the order in which the futures complete. -/
def fill_results (exec : ToolCall → ToolResult) (calls : List ToolCall)
    (completion_order : List ℕ) : List (Option ToolResult) :=
  completion_order.foldl
    (fun acc idx =>
      match calls[idx]? with
      | some tc => acc.set idx (some (exec tc))
      | none => acc)
    (List.replicate calls.length none)

/-- Shallow embedding of `_handle_tool_calls` (tool_executor.py:247-315):
returns the extended message list and the error count. -/
def handle_tool_calls (env : ToolEnv) (stateful_executor_present : Bool)
    (tool_calls : List ToolCall) (completion_order : List ℕ)
    (messages : List ChatMsg) : List ChatMsg × ℕ :=
  let execRes := exec_res env stateful_executor_present
  let results : List ToolResult :=
    if can_parallel tool_calls then
      (fill_results execRes tool_calls completion_order).reduceOption
    else
      tool_calls.map execRes
  (messages ++ results.map tool_result_msg,
    (results.filter (·.is_error)).length)

/-- Collapsing `reduceOption` over an all-`some` list. -/
theorem reduceOption_map_some {α : Type} (l : List α) :
    (l.map some).reduceOption = l := by
  induction l with
  | nil => rfl
  | cons x t ih => simp [List.reduceOption_cons_of_some, ih]

/-- Positions not in the completion order keep their slot value. -/
theorem fill_foldl_not_mem (exec : ToolCall → ToolResult)
    (calls : List ToolCall) (i : ℕ) :
    ∀ (order : List ℕ) (acc : List (Option ToolResult)), i ∉ order →
      (order.foldl
        (fun acc idx =>
          match calls[idx]? with
          | some tc => acc.set idx (some (exec tc))
          | none => acc) acc)[i]? = acc[i]? := by
  intro order
  induction order with
  | nil => intro acc _; rfl
  | cons j rest ih =>
    intro acc hi
    have hij : i ≠ j := fun h => hi (h ▸ List.mem_cons_self _ _)
    have hirest : i ∉ rest := fun h => hi (List.mem_cons_of_mem _ h)
    simp only [List.foldl_cons]
    rw [ih _ hirest]
    cases h : calls[j]? with
    | none => simp [h]
    | some tc => simp [h, List.getElem?_set_ne (Ne.symm hij)]

/-- The fold preserves the slot-list length. -/
theorem fill_foldl_length (exec : ToolCall → ToolResult)
    (calls : List ToolCall) :
    ∀ (order : List ℕ) (acc : List (Option ToolResult)),
      (order.foldl
        (fun acc idx =>
          match calls[idx]? with
          | some tc => acc.set idx (some (exec tc))
          | none => acc) acc).length = acc.length := by
  intro order
  induction order with
  | nil => intro acc; rfl
  | cons j rest ih =>
    intro acc
    simp only [List.foldl_cons]
    rw [ih]
    cases h : calls[j]? with
    | none => simp [h]
    | some tc => simp [h]

/-- A position that appears in the completion order ends up holding the
result computed for the call at that original index, regardless of where in
the order it completes. -/
theorem fill_foldl_mem (exec : ToolCall → ToolResult)
    (calls : List ToolCall) (i : ℕ) (hlt : i < calls.length) :
    ∀ (order : List ℕ) (acc : List (Option ToolResult)),
      acc.length = calls.length → i ∈ order →
      (order.foldl
        (fun acc idx =>
          match calls[idx]? with
          | some tc => acc.set idx (some (exec tc))
          | none => acc) acc)[i]?
        = some (some (exec (calls.get ⟨i, hlt⟩))) := by
  intro order
  induction order with
  | nil => intro acc _ hmem; exact absurd hmem (List.not_mem_nil i)
  | cons j rest ih =>
    intro acc hlen hmem
    simp only [List.foldl_cons]
    by_cases hr : i ∈ rest
    · refine ih _ ?_ hr
      cases h : calls[j]? with
      | none => simpa [h] using hlen
      | some tc => simpa [h] using hlen
    · have hij : i = j := by
        rcases List.mem_cons.mp hmem with h | h
        · exact h
        · exact absurd h hr
      subst hij
      rw [fill_foldl_not_mem exec calls i rest _ hr]
      have hget : calls[i]? = some (calls.get ⟨i, hlt⟩) := by
        simp [List.getElem?_eq_getElem hlt]
      simp only [hget]
      exact List.getElem?_set_eq_of_lt _ (by omega)


/-- When the completion order is a permutation of the request indices (each
future completes exactly once), the slot list ends up holding, at each index,
the result of the call originally requested at that index. -/
theorem fill_results_of_perm (exec : ToolCall → ToolResult)
    (calls : List ToolCall) (order : List ℕ)
    (hperm : order.Perm (List.range calls.length)) :
    fill_results exec calls order = calls.map (fun tc => some (exec tc)) := by
  apply List.ext_getElem?
  intro i
  by_cases hi : i < calls.length
  · have hmem : i ∈ order := hperm.mem_iff.mpr (List.mem_range.mpr hi)
    rw [fill_results,
      fill_foldl_mem exec calls i hi order _ (by simp) hmem,
      List.getElem?_map, List.getElem?_eq_getElem hi]
    rfl
  · have h1 : calls.length ≤ i := le_of_not_lt hi
    have hlen : (fill_results exec calls order).length = calls.length := by
      rw [fill_results, fill_foldl_length]
      simp
    rw [List.getElem?_eq_none (by rw [hlen]; exact h1),
      List.getElem?_eq_none (by simpa using h1)]

/-- C4. A model turn requesting `N > 1` tool calls, all in the read-only
whitelist, takes the parallel branch: the bounded pool is capped at
`min(N, 8) ≤ 8`, and exactly `N` results are appended to the message list in
the original request order, for every completion order of the futures. -/
theorem parallel_tool_calls_ordered (env : ToolEnv) (sep : Bool)
    (tool_calls : List ToolCall) (order : List ℕ) (messages : List ChatMsg)
    (h1 : 1 < tool_calls.length)
    (h2 : ∀ tc ∈ tool_calls, READ_ONLY_PARALLEL_TOOLS.contains tc.fn_name = true)
    (hperm : order.Perm (List.range tool_calls.length)) :
    (handle_tool_calls env sep tool_calls order messages).1
        = messages ++ (tool_calls.map (exec_res env sep)).map tool_result_msg
      ∧ (handle_tool_calls env sep tool_calls order messages).1.length
        = messages.length + tool_calls.length
      ∧ parallel_max_workers tool_calls.length ≤ 8 := by
  have hcp : can_parallel tool_calls = true := by
    simp only [can_parallel, Bool.and_eq_true, decide_eq_true_eq,
      List.all_eq_true]
    exact ⟨h1, h2⟩
  have hfill := fill_results_of_perm (exec_res env sep) tool_calls order hperm
  have hmain : (handle_tool_calls env sep tool_calls order messages).1
      = messages ++ (tool_calls.map (exec_res env sep)).map tool_result_msg := by
    simp only [handle_tool_calls, hcp, if_true, hfill]
    rw [show (fun tc => some (exec_res env sep tc))
        = some ∘ exec_res env sep from rfl,
      ← List.map_map, reduceOption_map_some]
  refine ⟨hmain, ?_, min_le_right _ _⟩
  rw [hmain]
  simp

/-- C4 witness: three whitelisted read-only calls completing in order
`[2, 0, 1]` still yield exactly three results in request order. -/
theorem parallel_tool_calls_ordered_witness :
    (handle_tool_calls
        { codeTools := [], getTimeout := fun _ => 60,
          runTool := fun tc =>
            { tool_call_id := tc.id, fn_name := tc.fn_name,
              result := "ok " ++ tc.fn_name, is_error := false,
              is_code_tool := false },
          timesOut := fun _ => false }
        true
        [⟨"c1", "repo_read", "{}"⟩, ⟨"c2", "web_search", "{}"⟩,
         ⟨"c3", "drive_list", "{}"⟩]
        [2, 0, 1] []).1
      = ([⟨"c1", "repo_read", "{}"⟩, ⟨"c2", "web_search", "{}"⟩,
          ⟨"c3", "drive_list", "{}"⟩].map
          (exec_res
            { codeTools := [], getTimeout := fun _ => 60,
              runTool := fun tc =>
                { tool_call_id := tc.id, fn_name := tc.fn_name,
                  result := "ok " ++ tc.fn_name, is_error := false,
                  is_code_tool := false },
              timesOut := fun _ => false } true)).map tool_result_msg := by
  have h := parallel_tool_calls_ordered
    { codeTools := [], getTimeout := fun _ => 60,
      runTool := fun tc =>
        { tool_call_id := tc.id, fn_name := tc.fn_name,
          result := "ok " ++ tc.fn_name, is_error := false,
          is_code_tool := false },
      timesOut := fun _ => false }
    true
    [⟨"c1", "repo_read", "{}"⟩, ⟨"c2", "web_search", "{}"⟩,
     ⟨"c3", "drive_list", "{}"⟩]
    [2, 0, 1] []
    (by decide) (by decide) (by decide)
  simpa using h.1

/-- The timeout result record is an error whose text names the tool, the
timeout in seconds, the still-running notice, and the extra reset message. -/
theorem make_timeout_result_spec (fn id : String) (ict : Bool) (t : ℕ)
    (reset : String) :
    (make_timeout_result fn id ict t reset).is_error = true
    ∧ (∃ a b, (make_timeout_result fn id ict t reset).result = a ++ fn ++ b)
    ∧ (∃ a b, (make_timeout_result fn id ict t reset).result
        = a ++ (toString t ++ "s") ++ b)
    ∧ (∃ a b, (make_timeout_result fn id ict t reset).result
        = a ++ "The tool is still running in background but control is returned to you." ++ b)
    ∧ (∃ a b, (make_timeout_result fn id ict t reset).result
        = a ++ reset ++ b) := by
  refine ⟨rfl,
    ⟨"⚠️ TOOL_TIMEOUT (",
      "): exceeded " ++ toString t ++ "s limit. "
        ++ "The tool is still running in background but control is returned to you. "
        ++ reset ++ "Try a different approach or inform the owner"
        ++ (if reset = "" then " about the issue" else "") ++ ".", ?_⟩,
    ⟨"⚠️ TOOL_TIMEOUT (" ++ fn ++ "): exceeded ",
      " limit. "
        ++ "The tool is still running in background but control is returned to you. "
        ++ reset ++ "Try a different approach or inform the owner"
        ++ (if reset = "" then " about the issue" else "") ++ ".", ?_⟩,
    ⟨"⚠️ TOOL_TIMEOUT (" ++ fn ++ "): exceeded " ++ toString t ++ "s limit. ",
      " " ++ reset ++ "Try a different approach or inform the owner"
        ++ (if reset = "" then " about the issue" else "") ++ ".", ?_⟩,
    ⟨"⚠️ TOOL_TIMEOUT (" ++ fn ++ "): exceeded " ++ toString t ++ "s limit. "
        ++ "The tool is still running in background but control is returned to you. ",
      "Try a different approach or inform the owner"
        ++ (if reset = "" then " about the issue" else "") ++ ".", ?_⟩⟩ <;>
    · apply String.ext
      simp [make_timeout_result, String.data_append, List.append_assoc]

/-- C5. A tool call that exceeds its timeout yields an error result whose
text names the tool, the timeout in seconds, and the still-running notice;
a regular call's thread is abandoned in the background (never force-killed),
while a stateful browser call resets the sticky executor and the text also
reports the browser-state reset. -/
theorem tool_timeout_returns_error (env : ToolEnv) (sep : Bool)
    (tc : ToolCall) (timeout_sec : ℕ) (ht : env.timesOut tc = true) :
    (execute_with_timeout env sep tc timeout_sec).1.is_error = true
    ∧ (∃ a b, (execute_with_timeout env sep tc timeout_sec).1.result
        = a ++ tc.fn_name ++ b)
    ∧ (∃ a b, (execute_with_timeout env sep tc timeout_sec).1.result
        = a ++ (toString timeout_sec ++ "s") ++ b)
    ∧ (∃ a b, (execute_with_timeout env sep tc timeout_sec).1.result
        = a ++ "The tool is still running in background but control is returned to you." ++ b)
    ∧ ((sep && STATEFUL_BROWSER_TOOLS.contains tc.fn_name) = false →
        (execute_with_timeout env sep tc timeout_sec).2
          = ThreadEffect.abandonInBackground)
    ∧ ((sep && STATEFUL_BROWSER_TOOLS.contains tc.fn_name) = true →
        (execute_with_timeout env sep tc timeout_sec).2
            = ThreadEffect.resetSticky
          ∧ ∃ a b, (execute_with_timeout env sep tc timeout_sec).1.result
            = a ++ "Browser state has been reset. " ++ b) := by
  by_cases hs : (sep && STATEFUL_BROWSER_TOOLS.contains tc.fn_name) = true
  · have hres : execute_with_timeout env sep tc timeout_sec
        = (make_timeout_result tc.fn_name tc.id
            (env.codeTools.contains tc.fn_name) timeout_sec
            "Browser state has been reset. ", ThreadEffect.resetSticky) := by
      simp only [execute_with_timeout, ht, hs]
      rfl
    obtain ⟨e1, e2, e3, e4, e5⟩ := make_timeout_result_spec tc.fn_name tc.id
      (env.codeTools.contains tc.fn_name) timeout_sec
      "Browser state has been reset. "
    rw [hres]
    exact ⟨e1, e2, e3, e4,
      fun hc => absurd (hs.symm.trans hc) (by decide),
      fun _ => ⟨rfl, e5⟩⟩
  · have hsf : (sep && STATEFUL_BROWSER_TOOLS.contains tc.fn_name) = false := by
      revert hs
      cases sep && STATEFUL_BROWSER_TOOLS.contains tc.fn_name <;> simp
    have hres : execute_with_timeout env sep tc timeout_sec
        = (make_timeout_result tc.fn_name tc.id
            (env.codeTools.contains tc.fn_name) timeout_sec "",
          ThreadEffect.abandonInBackground) := by
      simp only [execute_with_timeout, ht, hsf]
      rfl
    obtain ⟨e1, e2, e3, e4, _⟩ := make_timeout_result_spec tc.fn_name tc.id
      (env.codeTools.contains tc.fn_name) timeout_sec ""
    rw [hres]
    exact ⟨e1, e2, e3, e4, fun _ => rfl, fun hc => absurd hc hs⟩

/-- C5 witness: a timed-out `web_search` call is abandoned in the background
with an error result, and a timed-out `browse_page` call resets the sticky
executor and reports the reset. -/
theorem tool_timeout_returns_error_witness :
    ((execute_with_timeout
        { codeTools := [], getTimeout := fun _ => 30,
          runTool := fun tc =>
            { tool_call_id := tc.id, fn_name := tc.fn_name, result := "ok",
              is_error := false, is_code_tool := false },
          timesOut := fun _ => true }
        true ⟨"c1", "web_search", "{}"⟩ 30).1.is_error = true
      ∧ (execute_with_timeout
        { codeTools := [], getTimeout := fun _ => 30,
          runTool := fun tc =>
            { tool_call_id := tc.id, fn_name := tc.fn_name, result := "ok",
              is_error := false, is_code_tool := false },
          timesOut := fun _ => true }
        true ⟨"c1", "web_search", "{}"⟩ 30).2
          = ThreadEffect.abandonInBackground)
    ∧ ((execute_with_timeout
        { codeTools := [], getTimeout := fun _ => 30,
          runTool := fun tc =>
            { tool_call_id := tc.id, fn_name := tc.fn_name, result := "ok",
              is_error := false, is_code_tool := false },
          timesOut := fun _ => true }
        true ⟨"c2", "browse_page", "{}"⟩ 30).2 = ThreadEffect.resetSticky
      ∧ ∃ a b, (execute_with_timeout
        { codeTools := [], getTimeout := fun _ => 30,
          runTool := fun tc =>
            { tool_call_id := tc.id, fn_name := tc.fn_name, result := "ok",
              is_error := false, is_code_tool := false },
          timesOut := fun _ => true }
        true ⟨"c2", "browse_page", "{}"⟩ 30).1.result
          = a ++ "Browser state has been reset. " ++ b) := by
  have h1 := tool_timeout_returns_error
    { codeTools := [], getTimeout := fun _ => 30,
      runTool := fun tc =>
        { tool_call_id := tc.id, fn_name := tc.fn_name, result := "ok",
          is_error := false, is_code_tool := false },
      timesOut := fun _ => true }
    true ⟨"c1", "web_search", "{}"⟩ 30 rfl
  have h2 := tool_timeout_returns_error
    { codeTools := [], getTimeout := fun _ => 30,
      runTool := fun tc =>
        { tool_call_id := tc.id, fn_name := tc.fn_name, result := "ok",
          is_error := false, is_code_tool := false },
      timesOut := fun _ => true }
    true ⟨"c2", "browse_page", "{}"⟩ 30 rfl
  exact ⟨⟨h1.1, h1.2.2.2.2.1 (by decide)⟩, h2.2.2.2.2.2 (by decide)⟩

/-! ## Supervisor event dispatch — `supervisor/events.py`

Supervisor-owned state (pending queue, running table, workers, result files,
`supervisor.jsonl` log, sent messages, snapshots) is passed explicitly.  The
running table and the result directory are modelled as association lists
keyed by strings (Python dict keys / file names are unique).  External
collaborators become `Ctx` fields: `judge` is the light-LLM duplicate
classifier of `_find_duplicate_task` (raising = `Except.error`), `fresh_id`
the `uuid4().hex[:8]` value used when a schedule event carries no task id.
`ctx.enqueue_task` is implemented outside `src/`; modelled from the spec
("`enqueue(task)` ... lives in the pending queue until assigned") as
appending the task to the `enqueued` effect list. -/

/-- Python truthiness of an optional int (`None` and `0` are falsy). -/
def pyTruthyInt (o : Option Int) : Bool :=
  match o with
  | some c => c ≠ 0
  | none => false

/-- Python truthiness of an optional string (`None` and `""` are falsy). -/
def pyTruthyOptStr (o : Option String) : Bool :=
  match o with
  | some s => s ≠ ""
  | none => false

/-- A task dict sitting in the supervisor's pending list. -/
structure PendTask where
  id : Option String
  text : Option String
  description : Option String
deriving DecidableEq, Repr

/-- The `"task"` payload inside a running-table entry. -/
structure RunTaskData where
  text : Option String
  description : Option String
deriving DecidableEq, Repr

/-- A running-table entry (supervisor-side shadow of an in-flight task). -/
structure RunMeta where
  task : Option RunTaskData
deriving DecidableEq, Repr

/-- A record appended to `supervisor.jsonl` (fields used by the handlers
modelled here; timestamps are I/O and omitted). -/
structure LogRec where
  type : String
  event_type : Option String := none
  error : Option String := none
  event_repr : Option String := none
  task_id : Option String := none
  consecutive_failures : Option Int := none
  cost_usd : Option ℚ := none
  rounds : Option Int := none
deriving DecidableEq, Repr

/-- A `task_results/{id}.json` record. -/
structure TaskResultRec where
  task_id : Option String
  status : String
  result : String
  cost_usd : ℚ
  ts : String
deriving DecidableEq, Repr

/-- A pool worker, as seen by the supervisor. -/
structure Worker where
  busy_task_id : Option String
deriving DecidableEq, Repr

/-- A task admitted to the queue by `_handle_schedule_task`. -/
structure Task where
  id : String
  type : String
  chat_id : Int
  text : String
  depth : Int
  parent_task_id : Option String
deriving DecidableEq, Repr

/-- The persisted supervisor state dict (fields the handlers here touch). -/
structure SupState where
  owner_chat_id : Option Int
  evolution_consecutive_failures : Option Int
deriving DecidableEq, Repr

/-- Supervisor context: owned state plus effect lists plus external oracles. -/
structure Ctx where
  state : SupState
  pending : List PendTask
  running : List (String × RunMeta)
  workers : List (Int × Worker)
  results : List (String × TaskResultRec)
  supLog : List LogRec
  sent : List (Int × String)
  snapshots : List String
  enqueued : List Task
  /-- The light-LLM duplicate classifier: prompt ↦ reply content;
  `Except.error` models any exception (API, timeout, import failure). -/
  judge : String → Except String (Option String)
  /-- `uuid.uuid4().hex[:8]` drawn when the event carries no task id. -/
  fresh_id : String

/-- A worker event: either not a mapping at all, or a dict (fields used by
the handlers modelled here). -/
structure EvtData where
  type : Option String := none
  task_id : Option String := none
  task_type : Option String := none
  worker_id : Option Int := none
  cost_usd : Option ℚ := none
  total_rounds : Option Int := none
  ts : Option String := none
  description : Option String := none
  context : Option String := none
  depth : Option Int := none
  parent_task_id : Option String := none

/-- The argument of `dispatch_event`. -/
inductive WorkerEvent
  | notMapping (event_repr : String)
  | mapping (e : EvtData)

/-- `_handle_task_done`, evolution circuit-breaker bookkeeping
(events.py:150-180): touches only the persisted state and the log. -/
def task_done_track_evolution (evt : EvtData) (ctx : Ctx) : Ctx :=
  if evt.task_type.getD "" = "evolution" then
    let st := ctx.state
    let cost := evt.cost_usd.getD 0
    let rounds := evt.total_rounds.getD 0
    if 1/10 < cost ∧ 1 ≤ rounds then
      { ctx with state := { st with evolution_consecutive_failures := some 0 } }
    else
      let failures := st.evolution_consecutive_failures.getD 0 + 1
      { ctx with
        state := { st with evolution_consecutive_failures := some failures }
        supLog := ctx.supLog ++
          [{ type := "evolution_task_failure_tracked", task_id := evt.task_id,
             consecutive_failures := some failures, cost_usd := some cost,
             rounds := some rounds }] }
  else ctx

/-- `_handle_task_done`, `running.pop(str(task_id))` when `task_id` is truthy
(events.py:182-185). -/
def task_done_pop_running (evt : EvtData) (ctx : Ctx) : Ctx :=
  if pyTruthyOptStr evt.task_id then
    { ctx with running :=
        ctx.running.filter (fun p => p.1 ≠ pyStrOpt evt.task_id) }
  else ctx

/-- `_handle_task_done`, clearing the hosting worker's busy flag
(events.py:186-187). -/
def task_done_clear_worker (evt : EvtData) (ctx : Ctx) : Ctx :=
  match evt.worker_id with
  | some w =>
    { ctx with workers := ctx.workers.map (fun (p : Int × Worker) =>
        if p.1 = w ∧ p.2.busy_task_id = evt.task_id
        then (p.1, { busy_task_id := none }) else p) }
  | none => ctx

/-- The result record `_handle_task_done` writes (events.py:198-204). -/
def task_done_result_rec (evt : EvtData) : TaskResultRec :=
  { task_id := evt.task_id, status := "completed", result := "",
    cost_usd := evt.cost_usd.getD 0, ts := evt.ts.getD "" }

/-- `_handle_task_done`, result-record write: only when no record for the id
already exists (events.py:191-207). -/
def task_done_write_result (evt : EvtData) (ctx : Ctx) : Ctx :=
  if (alookup (pyStrOpt evt.task_id) ctx.results).isNone then
    { ctx with results := ctx.results ++
        [(pyStrOpt evt.task_id, task_done_result_rec evt)] }
  else ctx

/-- Shallow embedding of `_handle_task_done` (events.py:144-209), in source
order: evolution bookkeeping, pop from the running table, clear the worker
busy flag, `persist_queue_snapshot(reason="task_done")`, write the result
record if absent. -/
def handle_task_done (evt : EvtData) (ctx : Ctx) : Ctx :=
  let ctx1 := task_done_track_evolution evt ctx
  let ctx2 := task_done_pop_running evt ctx1
  let ctx3 := task_done_clear_worker evt ctx2
  let ctx4 := { ctx3 with snapshots := ctx3.snapshots ++ ["task_done"] }
  task_done_write_result evt ctx4

/-- The candidate (id, text) pairs `_find_duplicate_task` collects from the
pending list and the running table (events.py:298-309). -/
def dedup_candidates (pending : List PendTask)
    (running : List (String × RunMeta)) : List (String × String) :=
  (pending.filterMap (fun task =>
    let text := pyOrStr2 task.text task.description
    if pyStrip text ≠ "" then some (task.id.getD "?", pyTake 200 text) else none))
  ++ (running.filterMap (fun p =>
    match p.2.task with
    | some td =>
      let text := pyOrStr2 td.text td.description
      if pyStrip text ≠ "" then some (p.1, pyTake 200 text) else none
    | none => none))

/-- Shallow embedding of `_find_duplicate_task` (events.py:289-342).
`judge` is the external light-LLM call; any exception in the `try` block
(`Except.error`) yields `none` (accept the task). -/
def find_duplicate_task (desc : String) (pending : List PendTask)
    (running : List (String × RunMeta))
    (judge : String → Except String (Option String)) : Option String :=
  let existing := dedup_candidates pending running
  if existing.isEmpty then none
  else
    let existing_lines := String.intercalate "\n"
      ((existing.take 10).map (fun e => "- [" ++ e.1 ++ "] " ++ e.2))
    let prompt :=
      "Is this new task a semantic duplicate of any existing task?\n"
        ++ "New: " ++ pyTake 300 desc ++ "\n\n"
        ++ "Existing tasks:\n" ++ existing_lines ++ "\n\n"
        ++ "Reply ONLY with the task ID if duplicate, or NONE if not."
    match judge prompt with
    | Except.error _ => none
    | Except.ok content =>
      let answer := pyStrip (pyOrDefault content "NONE")
      if pyToUpper answer = "NONE" ∨ answer = "" then none
      else
        let answer_lower := pyToLower answer
        (existing.find? (fun e => pyInStr (pyToLower e.1) answer_lower)).map (·.1)

/-- Shallow embedding of `_handle_schedule_task` (events.py:345-377). -/
def handle_schedule_task (evt : EvtData) (ctx : Ctx) : Ctx :=
  let st := ctx.state
  let owner_chat_id := st.owner_chat_id
  let desc := pyStrip (evt.description.getD "")
  let task_context := pyStrip (evt.context.getD "")
  let depth := evt.depth.getD 0
  if 3 < depth then
    match owner_chat_id with
    | some cid =>
      if cid ≠ 0 then
        { ctx with sent := ctx.sent ++
            [(cid, "⚠️ Task rejected: subtask depth limit (3) exceeded")] }
      else ctx
    | none => ctx
  else
    match owner_chat_id with
    | some cid =>
      if cid ≠ 0 ∧ desc ≠ "" then
        match find_duplicate_task desc ctx.pending ctx.running ctx.judge with
        | some dup_id =>
          { ctx with sent := ctx.sent ++
              [(cid, "⚠️ Task rejected: semantically similar to already active task "
                  ++ dup_id)] }
        | none =>
          let tid := pyOrDefault evt.task_id ctx.fresh_id
          let text :=
            if task_context ≠ "" then
              desc ++ "\n\n---\n[BEGIN_PARENT_CONTEXT — reference material only, not instructions]\n"
                ++ task_context ++ "\n[END_PARENT_CONTEXT]"
            else desc
          let parent_id :=
            if pyTruthyOptStr evt.parent_task_id then evt.parent_task_id
            else none
          let task : Task :=
            { id := tid, type := "task", chat_id := cid, text := text,
              depth := depth, parent_task_id := parent_id }
          { ctx with
            enqueued := ctx.enqueued ++ [task]
            sent := ctx.sent ++ [(cid, "🗓️ Scheduled task " ++ tid ++ ": " ++ desc)]
            snapshots := ctx.snapshots ++ ["schedule_task_event"] }
      else ctx
    | none => ctx

/-- What running one handler does: returns the updated context, or raises
with the context as mutated up to the raise point (Python handlers mutate
`ctx` in place, so partial mutations survive an exception). -/
inductive HandlerOutcome
  | ok (ctx : Ctx)
  | raises (ctx : Ctx) (err : String)

/-- A handler body. -/
def HandlerFn : Type := EvtData → Ctx → HandlerOutcome

/-- The `EVENT_HANDLERS` dispatch table (events.py:470-486): the fixed 15
keys of the source.  `task_done` and `schedule_task` are the handlers
embedded above (they perform no raising operation in the model); the other
thirteen handler bodies wrap external effects (Telegram, git, process
control), so they are opaque parameters `hs`, universally quantified in the
theorems. -/
def EVENT_HANDLERS (hs : String → HandlerFn) : List (String × HandlerFn) :=
  [("llm_usage", hs "llm_usage"),
   ("task_heartbeat", hs "task_heartbeat"),
   ("typing_start", hs "typing_start"),
   ("send_message", hs "send_message"),
   ("task_done", fun e c => HandlerOutcome.ok (handle_task_done e c)),
   ("task_metrics", hs "task_metrics"),
   ("review_request", hs "review_request"),
   ("restart_request", hs "restart_request"),
   ("promote_to_stable", hs "promote_to_stable"),
   ("schedule_task", fun e c => HandlerOutcome.ok (handle_schedule_task e c)),
   ("cancel_task", hs "cancel_task"),
   ("send_photo", hs "send_photo"),
   ("toggle_evolution", hs "toggle_evolution"),
   ("toggle_consciousness", hs "toggle_consciousness"),
   ("owner_message_injected", hs "owner_message_injected")]

/-- Shallow embedding of `dispatch_event` (events.py:489-542).  Always
returns a context (total): malformed events, unknown types and raising
handlers all turn into diagnostic records appended to `supervisor.jsonl`. -/
def dispatch_event (hs : String → HandlerFn) (evt : WorkerEvent)
    (ctx : Ctx) : Ctx :=
  match evt with
  | WorkerEvent.notMapping r =>
    { ctx with supLog := ctx.supLog ++
        [{ type := "invalid_worker_event", error := some "event is not dict",
           event_repr := some (r.take 1000) }] }
  | WorkerEvent.mapping e =>
    let event_type := pyStrip (e.type.getD "")
    if event_type = "" then
      { ctx with supLog := ctx.supLog ++
          [{ type := "invalid_worker_event", error := some "missing event.type" }] }
    else
      match alookup event_type (EVENT_HANDLERS hs) with
      | none =>
        { ctx with supLog := ctx.supLog ++
            [{ type := "unknown_worker_event", event_type := some event_type }] }
      | some handler =>
        match handler e ctx with
        | HandlerOutcome.ok ctx1 => ctx1
        | HandlerOutcome.raises ctx1 err =>
          { ctx1 with supLog := ctx1.supLog ++
              [{ type := "worker_event_handler_error",
                 event_type := some event_type, error := some err }] }

/-- One control-loop drain: events dispatched in order, each against the
state left by its predecessor (events are processed independently; a failure
on one never halts the rest). -/
def dispatch_all (hs : String → HandlerFn) (evts : List WorkerEvent)
    (ctx : Ctx) : Ctx :=
  evts.foldl (fun c e => dispatch_event hs e c) ctx

/-- C3. `dispatch_event` returns normally on every input: a non-mapping
event, a missing/empty type, an unknown type, and a raising handler each
append one diagnostic record to the supervisor log (naming the event type
and the error for handler failures), and dispatch of subsequent events
continues from the resulting state unconditionally. -/
theorem dispatch_event_never_raises (hs : String → HandlerFn) (ctx : Ctx) :
    (∀ r, (dispatch_event hs (WorkerEvent.notMapping r) ctx).supLog
        = ctx.supLog ++
          [{ type := "invalid_worker_event", error := some "event is not dict",
             event_repr := some (r.take 1000) }])
    ∧ (∀ e : EvtData, pyStrip (e.type.getD "") = "" →
        (dispatch_event hs (WorkerEvent.mapping e) ctx).supLog
          = ctx.supLog ++
            [{ type := "invalid_worker_event", error := some "missing event.type" }])
    ∧ (∀ e : EvtData, pyStrip (e.type.getD "") ≠ "" →
        alookup (pyStrip (e.type.getD "")) (EVENT_HANDLERS hs) = none →
        (dispatch_event hs (WorkerEvent.mapping e) ctx).supLog
          = ctx.supLog ++
            [{ type := "unknown_worker_event",
               event_type := some (pyStrip (e.type.getD "")) }])
    ∧ (∀ (e : EvtData) (handler : HandlerFn) (ctx1 : Ctx) (err : String),
        pyStrip (e.type.getD "") ≠ "" →
        alookup (pyStrip (e.type.getD "")) (EVENT_HANDLERS hs) = some handler →
        handler e ctx = HandlerOutcome.raises ctx1 err →
        (dispatch_event hs (WorkerEvent.mapping e) ctx).supLog
          = ctx1.supLog ++
            [{ type := "worker_event_handler_error",
               event_type := some (pyStrip (e.type.getD "")), error := some err }])
    ∧ (∀ evt evts, dispatch_all hs (evt :: evts) ctx
        = dispatch_all hs evts (dispatch_event hs evt ctx)) := by
  refine ⟨fun r => rfl, fun e h => ?_, fun e h hlk => ?_,
    fun e handler ctx1 err h hlk hout => ?_, fun evt evts => rfl⟩
  · simp only [dispatch_event, if_pos h]
  · simp only [dispatch_event, if_neg h, hlk]
  · simp only [dispatch_event, if_neg h, hlk, hout]

/-- C3 witness: a handler that raises produces a diagnostic record naming
the event type and the error, appended to the supervisor log. -/
theorem dispatch_event_never_raises_witness :
    (dispatch_event
        (fun _ => fun _ c => HandlerOutcome.raises c "RuntimeError: boom")
        (WorkerEvent.mapping { type := some "llm_usage" })
        { state := { owner_chat_id := none, evolution_consecutive_failures := none },
          pending := [], running := [], workers := [], results := [],
          supLog := [], sent := [], snapshots := [], enqueued := [],
          judge := fun _ => Except.error "down", fresh_id := "f1" }).supLog
      = [{ type := "worker_event_handler_error",
           event_type := some "llm_usage", error := some "RuntimeError: boom" }] := by
  have h := (dispatch_event_never_raises
      (fun _ => fun _ c => HandlerOutcome.raises c "RuntimeError: boom")
      { state := { owner_chat_id := none, evolution_consecutive_failures := none },
        pending := [], running := [], workers := [], results := [],
        supLog := [], sent := [], snapshots := [], enqueued := [],
        judge := fun _ => Except.error "down", fresh_id := "f1" }).2.2.2.1
    { type := some "llm_usage" }
    (fun _ c => HandlerOutcome.raises c "RuntimeError: boom")
    { state := { owner_chat_id := none, evolution_consecutive_failures := none },
      pending := [], running := [], workers := [], results := [],
      supLog := [], sent := [], snapshots := [], enqueued := [],
      judge := fun _ => Except.error "down", fresh_id := "f1" }
    "RuntimeError: boom" (by decide) rfl rfl
  simpa using h

/-- C10. Every non-`None` value `_find_duplicate_task` returns is one of the
candidate ids it collected from the pending list and the running table, for
every description, candidate state and classifier reply. -/
theorem duplicate_id_is_active (desc : String) (pending : List PendTask)
    (running : List (String × RunMeta))
    (judge : String → Except String (Option String)) (i : String)
    (h : find_duplicate_task desc pending running judge = some i) :
    i ∈ (dedup_candidates pending running).map Prod.fst := by
  simp only [find_duplicate_task] at h
  by_cases he : (dedup_candidates pending running).isEmpty
  · rw [if_pos he] at h
    exact absurd h (by simp)
  · rw [if_neg he] at h
    revert h
    generalize judge _ = res
    intro h
    cases res with
    | error e => exact absurd h (by simp)
    | ok content =>
      dsimp only at h
      by_cases hn : pyToUpper (pyStrip (pyOrDefault content "NONE")) = "NONE"
          ∨ pyStrip (pyOrDefault content "NONE") = ""
      · rw [if_pos hn] at h
        exact absurd h (by simp)
      · rw [if_neg hn] at h
        obtain ⟨e, hfind, hei⟩ := Option.map_eq_some'.mp h
        exact hei ▸ List.mem_map_of_mem Prod.fst (List.mem_of_find?_eq_some hfind)

/-- C10 witness: a duplicate verdict naming pending task `t1` is returned
and `t1` is indeed among the collected candidate ids. -/
theorem duplicate_id_is_active_witness :
    "t1" ∈ (dedup_candidates
      [{ id := some "t1", text := some "fix the bug", description := none }]
      []).map Prod.fst :=
  duplicate_id_is_active "fix that bug"
    [{ id := some "t1", text := some "fix the bug", description := none }]
    [] (fun _ => Except.ok (some "t1")) "t1" (by decide)

/-- C2. If the external duplicate-judgment call raises (any exception:
API error, timeout, import failure), `_find_duplicate_task` returns `None`,
and `_handle_schedule_task` therefore enqueues the task — judgment failure
always results in acceptance. -/
theorem dedup_fails_open (evt : EvtData) (ctx : Ctx) (cid : Int)
    (hj : ∀ p, ∃ e, ctx.judge p = Except.error e)
    (hdepth : evt.depth.getD 0 ≤ 3)
    (howner : ctx.state.owner_chat_id = some cid) (hcid : cid ≠ 0)
    (hdesc : pyStrip (evt.description.getD "") ≠ "") :
    find_duplicate_task (pyStrip (evt.description.getD ""))
        ctx.pending ctx.running ctx.judge = none
    ∧ ∃ t : Task, (handle_schedule_task evt ctx).enqueued
        = ctx.enqueued ++ [t] := by
  have hfind : ∀ d, find_duplicate_task d ctx.pending ctx.running ctx.judge
      = none := by
    intro d
    simp only [find_duplicate_task]
    by_cases he : (dedup_candidates ctx.pending ctx.running).isEmpty
    · rw [if_pos he]
    · rw [if_neg he]
      obtain ⟨e, hje⟩ := hj _
      rw [hje]
  refine ⟨hfind _, ?_⟩
  have hnd : ¬ (3 < evt.depth.getD 0) := not_lt.mpr hdepth
  simp only [handle_schedule_task, if_neg hnd, howner,
    if_pos (And.intro hcid hdesc), hfind]
  exact ⟨_, rfl⟩

/-- C2 witness: with the classifier raising an API error, a depth-1 subtask
is accepted and enqueued even though a similar pending task exists. -/
theorem dedup_fails_open_witness :
    find_duplicate_task (pyStrip "summarize the repo")
        [{ id := some "p1", text := some "summarize the repository",
           description := none }] []
        (fun _ => Except.error "APIError: timeout") = none
    ∧ ∃ t : Task,
      (handle_schedule_task
        { type := some "schedule_task",
          description := some "summarize the repo", depth := some 1 }
        { state := { owner_chat_id := some 42,
                     evolution_consecutive_failures := none },
          pending := [{ id := some "p1", text := some "summarize the repository",
                        description := none }],
          running := [], workers := [], results := [], supLog := [],
          sent := [], snapshots := [], enqueued := [],
          judge := fun _ => Except.error "APIError: timeout",
          fresh_id := "ab12cd34" }).enqueued = [] ++ [t] := by
  have h := dedup_fails_open
    { type := some "schedule_task",
      description := some "summarize the repo", depth := some 1 }
    { state := { owner_chat_id := some 42,
                 evolution_consecutive_failures := none },
      pending := [{ id := some "p1", text := some "summarize the repository",
                    description := none }],
      running := [], workers := [], results := [], supLog := [],
      sent := [], snapshots := [], enqueued := [],
      judge := fun _ => Except.error "APIError: timeout",
      fresh_id := "ab12cd34" }
    42 (fun p => ⟨"APIError: timeout", rfl⟩) (by decide) rfl (by decide)
    (by decide)
  exact h

/-- C7. `_handle_schedule_task` never admits a task of depth greater than 3:
everything in the enqueued list after handling was either already there or
has depth at most 3. -/
theorem depth_limit_enforced (evt : EvtData) (ctx : Ctx) (t : Task)
    (ht : t ∈ (handle_schedule_task evt ctx).enqueued) :
    t ∈ ctx.enqueued ∨ t.depth ≤ 3 := by
  by_cases hd : 3 < evt.depth.getD 0
  · have hsame : (handle_schedule_task evt ctx).enqueued = ctx.enqueued := by
      simp only [handle_schedule_task, if_pos hd]
      cases ctx.state.owner_chat_id with
      | none => rfl
      | some cid =>
        dsimp only
        split <;> rfl
    rw [hsame] at ht
    exact Or.inl ht
  · simp only [handle_schedule_task, if_neg hd] at ht
    cases howner : ctx.state.owner_chat_id with
    | none =>
      rw [howner] at ht
      dsimp only at ht
      exact Or.inl ht
    | some cid =>
      rw [howner] at ht
      dsimp only at ht
      by_cases hcond : cid ≠ 0 ∧ pyStrip (evt.description.getD "") ≠ ""
      · rw [if_pos hcond] at ht
        cases hdup : find_duplicate_task (pyStrip (evt.description.getD ""))
            ctx.pending ctx.running ctx.judge with
        | some dupid =>
          rw [hdup] at ht
          dsimp only at ht
          exact Or.inl ht
        | none =>
          rw [hdup] at ht
          dsimp only at ht
          simp only [List.mem_append, List.mem_singleton] at ht
          cases ht with
          | inl h => exact Or.inl h
          | inr h => exact Or.inr (by rw [h]; exact not_lt.mp hd)
      · rw [if_neg hcond] at ht
        exact Or.inl ht

/-- C7 witness: a depth-5 schedule event leaves the enqueued list unchanged,
so the pre-existing task is still the only explanation of membership. -/
theorem depth_limit_enforced_witness :
    ({ id := "t0", type := "task", chat_id := 42, text := "old", depth := 1,
       parent_task_id := none } : Task)
      ∈ ({ state := { owner_chat_id := some 42,
                      evolution_consecutive_failures := none },
           pending := [], running := [], workers := [], results := [],
           supLog := [], sent := [], snapshots := [],
           enqueued := [{ id := "t0", type := "task", chat_id := 42,
                          text := "old", depth := 1, parent_task_id := none }],
           judge := fun _ => Except.error "down",
           fresh_id := "f1" } : Ctx).enqueued
    ∨ ({ id := "t0", type := "task", chat_id := 42, text := "old", depth := 1,
         parent_task_id := none } : Task).depth ≤ 3 :=
  depth_limit_enforced
    { type := some "schedule_task", description := some "deep task",
      depth := some 5 }
    { state := { owner_chat_id := some 42,
                 evolution_consecutive_failures := none },
      pending := [], running := [], workers := [], results := [],
      supLog := [], sent := [], snapshots := [],
      enqueued := [{ id := "t0", type := "task", chat_id := 42,
                     text := "old", depth := 1, parent_task_id := none }],
      judge := fun _ => Except.error "down", fresh_id := "f1" }
    { id := "t0", type := "task", chat_id := 42, text := "old", depth := 1,
      parent_task_id := none }
    (by decide)

/-- Number of result records stored under a given id. -/
def resultCount {β : Type} (l : List (String × β)) (k : String) : ℕ :=
  (l.filter (fun p => p.1 = k)).length

/-- No record under a key iff the count for that key is zero. -/
theorem alookup_isNone_iff_count {β : Type} (k : String)
    (l : List (String × β)) :
    (alookup k l).isNone = true ↔ resultCount l k = 0 := by
  simp [alookup, resultCount, List.find?_eq_none, List.length_eq_zero,
    List.filter_eq_nil_iff]

/-- Appending a record under `k` increments the count for `k`. -/
theorem resultCount_append_self {β : Type} (l : List (String × β))
    (k : String) (r : β) :
    resultCount (l ++ [(k, r)]) k = resultCount l k + 1 := by
  simp [resultCount, List.filter_append]

/-- A `task_done`-typed mapping event dispatches to `_handle_task_done`. -/
theorem dispatch_task_done (hs : String → HandlerFn) (evt : EvtData)
    (ctx : Ctx) (hty : evt.type = some "task_done") :
    dispatch_event hs (WorkerEvent.mapping evt) ctx = handle_task_done evt ctx := by
  simp only [dispatch_event, hty]
  rfl

/-- After `_handle_task_done` with a truthy task id, the running table is the
old one with every entry under that id removed. -/
theorem task_done_running_eq (evt : EvtData) (ctx : Ctx)
    (htr : pyTruthyOptStr evt.task_id = true) :
    (handle_task_done evt ctx).running
      = ctx.running.filter (fun p => p.1 ≠ pyStrOpt evt.task_id) := by
  have h1 : (task_done_track_evolution evt ctx).running = ctx.running := by
    unfold task_done_track_evolution
    split
    · dsimp only
      split <;> rfl
    · rfl
  have h2 : ∀ c : Ctx, (task_done_clear_worker evt c).running = c.running := by
    intro c
    unfold task_done_clear_worker
    split <;> rfl
  have h3 : ∀ c : Ctx, (task_done_write_result evt c).running = c.running := by
    intro c
    unfold task_done_write_result
    split <;> rfl
  have h4 : (task_done_pop_running evt (task_done_track_evolution evt ctx)).running
      = ctx.running.filter (fun p => p.1 ≠ pyStrOpt evt.task_id) := by
    unfold task_done_pop_running
    rw [if_pos htr]
    dsimp only
    rw [h1]
  simp only [handle_task_done]
  rw [h3]
  dsimp only
  rw [h2, h4]

/-- `_handle_task_done` writes a result record for the id exactly when none
exists yet; other state transitions leave the result store unchanged. -/
theorem task_done_results_eq (evt : EvtData) (ctx : Ctx) :
    (handle_task_done evt ctx).results
      = if (alookup (pyStrOpt evt.task_id) ctx.results).isNone = true
        then ctx.results ++ [(pyStrOpt evt.task_id, task_done_result_rec evt)]
        else ctx.results := by
  have h1 : (task_done_track_evolution evt ctx).results = ctx.results := by
    unfold task_done_track_evolution
    split
    · dsimp only
      split <;> rfl
    · rfl
  have h2 : ∀ c : Ctx, (task_done_pop_running evt c).results = c.results := by
    intro c
    unfold task_done_pop_running
    split <;> rfl
  have h3 : ∀ c : Ctx, (task_done_clear_worker evt c).results = c.results := by
    intro c
    unfold task_done_clear_worker
    split <;> rfl
  have hw : ∀ c : Ctx, c.results = ctx.results →
      (task_done_write_result evt c).results
        = if (alookup (pyStrOpt evt.task_id) ctx.results).isNone = true
          then ctx.results ++ [(pyStrOpt evt.task_id, task_done_result_rec evt)]
          else ctx.results := by
    intro c hc
    unfold task_done_write_result
    rw [hc]
    split
    · rfl
    · exact hc
  simp only [handle_task_done]
  refine hw _ ?_
  dsimp only
  rw [h3, h2, h1]

/-- One `_handle_task_done` application, for an event with a truthy task id
and a result store holding at most one record for it: the running table no
longer contains the id and exactly one result record exists for it. -/
theorem task_done_step (evt : EvtData) (ctx : Ctx) (t : String)
    (hid : evt.task_id = some t) (htne : t ≠ "")
    (hcount : resultCount ctx.results t ≤ 1) :
    (∀ p ∈ (handle_task_done evt ctx).running, p.1 ≠ t)
    ∧ resultCount (handle_task_done evt ctx).results t = 1 := by
  have htr : pyTruthyOptStr evt.task_id = true := by
    rw [hid]
    simp [pyTruthyOptStr, htne]
  have hkey : pyStrOpt evt.task_id = t := by rw [hid]; rfl
  constructor
  · intro p hp
    rw [task_done_running_eq evt ctx htr] at hp
    have hmem := (List.mem_filter.mp hp).2
    rw [hkey] at hmem
    exact of_decide_eq_true hmem
  · rw [task_done_results_eq, hkey]
    by_cases hn : (alookup t ctx.results).isNone = true
    · rw [if_pos hn, resultCount_append_self,
        (alookup_isNone_iff_count t ctx.results).mp hn]
    · rw [if_neg hn]
      have hne : resultCount ctx.results t ≠ 0 :=
        fun h0 => hn ((alookup_isNone_iff_count t ctx.results).mpr h0)
      omega

/-- C6. Duplicate delivery of `task_done` is idempotent: after `N ≥ 1`
dispatches of the same `task_done` event (task id `t`, at most one
pre-existing result record for `t`), the running table no longer contains
`t` and exactly one result record exists for `t` — the handler writes a
record only when none exists. -/
theorem task_done_idempotent (hs : String → HandlerFn) (evt : EvtData)
    (ctx : Ctx) (t : String) (n : ℕ)
    (hty : evt.type = some "task_done") (hid : evt.task_id = some t)
    (htne : t ≠ "") (hcount : resultCount ctx.results t ≤ 1) (hn : 1 ≤ n) :
    (∀ p ∈ (dispatch_all hs
        (List.replicate n (WorkerEvent.mapping evt)) ctx).running, p.1 ≠ t)
    ∧ resultCount (dispatch_all hs
        (List.replicate n (WorkerEvent.mapping evt)) ctx).results t = 1 := by
  obtain ⟨m, rfl⟩ : ∃ m, n = m + 1 := ⟨n - 1, by omega⟩
  clear hn
  induction m generalizing ctx with
  | zero =>
    have h1 : dispatch_all hs
        (List.replicate 1 (WorkerEvent.mapping evt)) ctx
        = handle_task_done evt ctx := by
      simp [dispatch_all, dispatch_task_done hs evt ctx hty]
    rw [h1]
    exact task_done_step evt ctx t hid htne hcount
  | succ m ih =>
    have hstep : dispatch_all hs
        (List.replicate (m + 1 + 1) (WorkerEvent.mapping evt)) ctx
        = dispatch_all hs (List.replicate (m + 1) (WorkerEvent.mapping evt))
            (handle_task_done evt ctx) := by
      rw [show List.replicate (m + 1 + 1) (WorkerEvent.mapping evt)
          = WorkerEvent.mapping evt
            :: List.replicate (m + 1) (WorkerEvent.mapping evt) from rfl]
      simp [dispatch_all, dispatch_task_done hs evt ctx hty]
    rw [hstep]
    exact ih (handle_task_done evt ctx)
      (le_of_eq (task_done_step evt ctx t hid htne hcount).2)

/-- C6 witness: two deliveries of the same `task_done` event for `t1` leave
the running table without `t1` and exactly one result record for it. -/
theorem task_done_idempotent_witness :
    (∀ p ∈ (dispatch_all (fun _ => fun _ c => HandlerOutcome.ok c)
        (List.replicate 2 (WorkerEvent.mapping
          { type := some "task_done", task_id := some "t1",
            worker_id := some 0, cost_usd := some (1/2),
            ts := some "2026-02-17T00:00:00Z" }))
        { state := { owner_chat_id := some 42,
                     evolution_consecutive_failures := none },
          pending := [], running := [("t1", { task := none })],
          workers := [(0, { busy_task_id := some "t1" })], results := [],
          supLog := [], sent := [], snapshots := [], enqueued := [],
          judge := fun _ => Except.error "down",
          fresh_id := "f1" }).running, p.1 ≠ "t1")
    ∧ resultCount (dispatch_all (fun _ => fun _ c => HandlerOutcome.ok c)
        (List.replicate 2 (WorkerEvent.mapping
          { type := some "task_done", task_id := some "t1",
            worker_id := some 0, cost_usd := some (1/2),
            ts := some "2026-02-17T00:00:00Z" }))
        { state := { owner_chat_id := some 42,
                     evolution_consecutive_failures := none },
          pending := [], running := [("t1", { task := none })],
          workers := [(0, { busy_task_id := some "t1" })], results := [],
          supLog := [], sent := [], snapshots := [], enqueued := [],
          judge := fun _ => Except.error "down",
          fresh_id := "f1" }).results "t1" = 1 :=
  task_done_idempotent (fun _ => fun _ c => HandlerOutcome.ok c)
    { type := some "task_done", task_id := some "t1",
      worker_id := some 0, cost_usd := some (1/2),
      ts := some "2026-02-17T00:00:00Z" }
    { state := { owner_chat_id := some 42,
                 evolution_consecutive_failures := none },
      pending := [], running := [("t1", { task := none })],
      workers := [(0, { busy_task_id := some "t1" })], results := [],
      supLog := [], sent := [], snapshots := [], enqueued := [],
      judge := fun _ => Except.error "down", fresh_id := "f1" }
    "t1" 2 rfl rfl (by decide) (by decide) (by decide)

/-! ## Agent worker — `ouroboros/agent.py`, `OuroborosAgent.handle_task`

`handle_task` (agent.py:414-463) runs `_prepare_task_context` and
`run_llm_loop` inside a `try`, catches any exception in `except` (logging it
and appending an `error` event to `self._pending_events`), clears the busy
flag in `finally`, and then — outside the `try` — reads `final_text`
unconditionally (`if final_text and final_text.strip():`, agent.py:454).
`final_text` is assigned only by the `run_llm_loop` call inside the `try`
(agent.py:427), so on the exception path that read raises
`UnboundLocalError`, which escapes `handle_task`.  The embedding folds the
whole `try` body (context preparation + loop) into the `loopRun` parameter
and makes the escape explicit in `returned`. -/

/-- `clip_text` (utils.py:24-27). -/
def clip_text (text : String) (max_len : ℕ) (suffix : String) : String :=
  if text.length ≤ max_len then text else pyTake max_len text ++ suffix

/-- `truncate_for_log` (utils.py:29-30). -/
def truncate_for_log (text : String) (max_len : ℕ) : String :=
  clip_text text max_len "..."

/-- A Python exception as caught by `except Exception as e`. -/
structure PyExc where
  name : String
  msg : String
  tb : String
deriving DecidableEq, Repr

/-- An event built by the worker (queued or pending). -/
structure AgentEvt where
  type : String
  chat_id : Option Int := none
  content : Option String := none
  task_id : Option String := none
  traceback : Option String := none
deriving DecidableEq, Repr

/-- Everything observable about one `handle_task` run. -/
structure HandleTaskOutcome where
  /-- Normal return value (the pending-events list), or the exception that
  escapes `handle_task`. -/
  returned : Except String (List AgentEvt)
  /-- `self._busy` after the run (the `finally` always clears it). -/
  busy_after : Bool
  /-- Events put on the worker's event queue (`_emit_progress` /
  `_emit_task_result`). -/
  queued : List AgentEvt
  /-- `self._pending_events` after the run. -/
  pending_events : List AgentEvt
  /-- Whether `memory.update_chat_history` ran. -/
  chat_history_updated : Bool
  /-- Whether `add_usage(usage)` ran. -/
  usage_added : Bool
deriving Repr

/-- Shallow embedding of `OuroborosAgent.handle_task` (agent.py:414-463).
`loopRun` is the outcome of the `try` body: `Except.ok (final_text, usage)`
when `run_llm_loop` returns, `Except.error e` when context preparation or
the loop raises `e`. -/
def handle_task (task_id : Option String) (chat_id : Option Int)
    (queue_present : Bool)
    (loopRun : Except PyExc (String × List (String × ℚ))) :
    HandleTaskOutcome :=
  match loopRun with
  | Except.ok (final_text, usage) =>
    -- finally: busy cleared; then agent.py:453-461 runs with final_text bound
    let emit := queue_present && pyTruthyInt chat_id
    let finalTruthy := final_text ≠ "" ∧ pyStrip final_text ≠ ""
    let queued :=
      if finalTruthy then
        if emit then
          [{ type := "progress", chat_id := chat_id,
             content := some ("✅: " ++ truncate_for_log final_text 500) },
           { type := "result", chat_id := chat_id, content := some final_text,
             task_id := task_id }]
        else []
      else []
    { returned := Except.ok []
      busy_after := false
      queued := queued
      pending_events := []
      chat_history_updated := decide finalTruthy
      usage_added := usage ≠ [] }
  | Except.error e =>
    -- except: error event appended to pending (agent.py:441-449);
    -- finally: busy cleared; then agent.py:454 reads the unbound final_text
    let error_msg := "Agent loop failed: " ++ e.name ++ ": " ++ e.msg
    let pending : List AgentEvt :=
      [{ type := "error", content := some error_msg,
         task_id := task_id, traceback := some (pyTake 2000 e.tb) }]
    { returned := Except.error
        "UnboundLocalError: local variable final_text referenced before assignment"
      busy_after := false
      queued := []
      pending_events := pending
      chat_history_updated := false
      usage_added := false }

/-- C9 (code bug, agent.py:454).  When the agent loop raises, the exception
is caught, the busy flag is cleared and the error event (task id +
truncated traceback) is built as the claim describes — but `handle_task`
then reads the never-assigned `final_text` and raises `UnboundLocalError`,
so it does not return normally and the error event is never returned to the
caller. -/
theorem handle_task_loop_error_escapes (task_id : Option String)
    (chat_id : Option Int) (queue_present : Bool) (e : PyExc) :
    (handle_task task_id chat_id queue_present (Except.error e)).returned
      = Except.error
        "UnboundLocalError: local variable final_text referenced before assignment"
    ∧ (handle_task task_id chat_id queue_present (Except.error e)).busy_after
      = false
    ∧ (handle_task task_id chat_id queue_present (Except.error e)).pending_events
      = [{ type := "error",
           content := some ("Agent loop failed: " ++ e.name ++ ": " ++ e.msg),
           task_id := task_id, traceback := some (pyTake 2000 e.tb) }] :=
  ⟨rfl, rfl, rfl⟩

end Wilson
